import Mathlib

/-!
Shallow embedding of the inventory subsystem of the e-commerce catalog
(the `Inventory` model over the `products`, `inventory_adjustments` and
`low_stock_alerts` tables).

The database is modelled as explicit state (`DB`), SQL rows as structures,
`datetime('now')` as a logical clock carried in the state, and uuid-based
`generateId` as a deterministic fresh-id counter.  A `db.transaction`
callback that may throw is modelled as a function into `Except String`:
`.error` corresponds to a thrown error with every write of the callback
rolled back (the caller's state is untouched), `.ok` to a commit.
Integer quantities are `Int` (JS numbers used as integers; the code itself
can drive them negative, see `createAdjustment`'s `adjustment` branch).
-/

namespace Inventory

/-- A row of the `products` table (the columns the inventory model touches). -/
structure Product where
  id : String
  stock_quantity : Int
  stock_low_threshold : Int
  reorder_level : Int
  stock_status : String
  deriving Repr, DecidableEq

/-- A row of the `inventory_adjustments` ledger table. -/
structure Adjustment where
  id : String
  product_id : String
  adjustment_type : String
  quantity : Int
  reason : String
  notes : Option String
  created_by : Option String
  deriving Repr, DecidableEq

/-- A row of the `low_stock_alerts` table. -/
structure Alert where
  id : String
  product_id : String
  alert_type : String
  current_quantity : Int
  threshold : Int
  is_resolved : Bool
  resolved_at : Option Nat
  deriving Repr, DecidableEq

/-- The database state: the three tables, a fresh-id counter modelling
`generateId` (uuid generation), and a logical clock modelling
`datetime('now')`. -/
structure DB where
  products : List Product
  adjustments : List Adjustment
  alerts : List Alert
  nextId : Nat
  now : Nat
  deriving Repr, DecidableEq

/-- `generateId(prefix)` from `utils/helpers`: a fresh unique id with a
prefix; uuid randomness is modelled by the deterministic counter `n`. -/
def generateId (pre : String) (n : Nat) : String :=
  pre ++ "_" ++ toString n

/-- `Inventory.calculateStockStatus(quantity, lowThreshold = 20)`. -/
def calculateStockStatus (quantity : Int) (lowThreshold : Int) : String :=
  if quantity = 0 then "out_of_stock"
  else if quantity ≤ lowThreshold then "low_stock"
  else "in_stock"

/-- `SELECT ... FROM products WHERE id = ?` (`.get`: first matching row). -/
def findProduct (db : DB) (productId : String) : Option Product :=
  db.products.find? (fun p => p.id = productId)

/-- The arguments of `Inventory.createAdjustment(data)`. -/
structure AdjustmentData where
  productId : String
  type : String
  quantity : Int
  reason : String
  notes : Option String
  createdBy : Option String
  deriving Repr, DecidableEq

/-- The `validTypes` array of `createAdjustment`. -/
def validTypes : List String :=
  ["purchase", "sale", "return", "damage", "theft", "adjustment", "transfer"]

/-- The `switch (type)` block of `createAdjustment` computing `newQuantity`
from the current quantity; throwing is modelled as `.error` with the exact
message.  A type outside the `switch` cases leaves `newQuantity` at the
current quantity (no `default:` case in the source). -/
def computeNewQuantity (type : String) (current : Int) (quantity : Int) :
    Except String Int :=
  if type = "purchase" ∨ type = "return" then
    Except.ok (current + quantity)
  else if type = "sale" ∨ type = "damage" ∨ type = "theft" then
    let newQuantity := current - quantity
    if newQuantity < 0 then Except.error "Insufficient stock for this adjustment"
    else Except.ok newQuantity
  else if type = "adjustment" then
    Except.ok quantity
  else if type = "transfer" then
    let newQuantity := current + quantity
    if newQuantity < 0 then Except.error "Insufficient stock for transfer"
    else Except.ok newQuantity
  else
    Except.ok current

/-- `UPDATE products SET stock_quantity = ?, stock_status = ? WHERE id = ?`. -/
def updateProductStock (db : DB) (productId : String) (newQuantity : Int)
    (stockStatus : String) : DB :=
  { db with
    products := db.products.map (fun p =>
      if p.id = productId then
        { p with stock_quantity := newQuantity, stock_status := stockStatus }
      else p) }

/-- The SQL filter `product_id = ? AND alert_type = ? AND is_resolved = 0`. -/
def isOpenAlertFor (productId alertType : String) (a : Alert) : Bool :=
  a.product_id = productId && a.alert_type = alertType && !a.is_resolved

/-- `SELECT id FROM low_stock_alerts WHERE product_id = ? AND alert_type = ?
AND is_resolved = 0` returned a row. -/
def hasOpenAlert (alerts : List Alert) (productId alertType : String) : Bool :=
  alerts.any (isOpenAlertFor productId alertType)

/-- The row built by the `INSERT INTO low_stock_alerts` statement. -/
def mkAlert (id productId alertType : String) (quantity threshold : Int) :
    Alert :=
  { id := id, product_id := productId, alert_type := alertType,
    current_quantity := quantity, threshold := threshold,
    is_resolved := false, resolved_at := none }

/-- `Inventory.checkLowStockAlert(productId, quantity)`: re-reads the
product's thresholds, then inserts a `low_stock` alert and/or a `reorder`
alert, each only when the quantity is at or below the corresponding
threshold and no unresolved alert of that type exists for the product. -/
def checkLowStockAlert (db : DB) (productId : String) (quantity : Int) : DB :=
  match findProduct db productId with
  | none => db
  | some product =>
    let db1 :=
      if quantity ≤ product.stock_low_threshold then
        if hasOpenAlert db.alerts productId "low_stock" then db
        else
          { db with
            alerts := db.alerts ++
              [mkAlert (generateId "alert" db.nextId) productId "low_stock"
                quantity product.stock_low_threshold],
            nextId := db.nextId + 1 }
      else db
    if quantity ≤ product.reorder_level then
      if hasOpenAlert db1.alerts productId "reorder" then db1
      else
        { db1 with
          alerts := db1.alerts ++
            [mkAlert (generateId "alert" db1.nextId) productId "reorder"
              quantity product.reorder_level],
          nextId := db1.nextId + 1 }
    else db1

/-- The ledger row built by `createAdjustment`'s `INSERT INTO
inventory_adjustments`. -/
def mkAdjustmentRow (id : String) (d : AdjustmentData) : Adjustment :=
  { id := id, product_id := d.productId, adjustment_type := d.type,
    quantity := d.quantity, reason := d.reason, notes := d.notes,
    created_by := d.createdBy }

/-- `Inventory.createAdjustment(data)`: validates the type, runs the
transaction (product lookup, quantity computation, product update, ledger
insert, alert check) and returns the adjustment id.  `.error` models a
throw: the transaction is rolled back and the caller's state is unchanged.
The `calculateStockStatus` call site in the source passes only
`newQuantity`, so the default threshold `20` applies, not the product's
`stock_low_threshold`. -/
def createAdjustment (db : DB) (d : AdjustmentData) :
    Except String (String × DB) :=
  if ¬ validTypes.contains d.type then
    Except.error ("Invalid adjustment type: " ++ d.type)
  else
    match findProduct db d.productId with
    | none => Except.error "Product not found"
    | some product =>
      match computeNewQuantity d.type product.stock_quantity d.quantity with
      | Except.error e => Except.error e
      | Except.ok newQuantity =>
        let stockStatus := calculateStockStatus newQuantity 20
        let db1 := updateProductStock db d.productId newQuantity stockStatus
        let adjustmentId := generateId "adj" db1.nextId
        let db2 := { db1 with
          adjustments := db1.adjustments ++ [mkAdjustmentRow adjustmentId d],
          nextId := db1.nextId + 1 }
        let db3 := checkLowStockAlert db2 d.productId newQuantity
        Except.ok (adjustmentId, db3)

/-- One element of the result list of `bulkAdjustments`. -/
structure BulkResult where
  productId : String
  success : Bool
  adjustmentId : Option String
  error : Option String
  deriving Repr, DecidableEq

/-- `Inventory.bulkAdjustments(adjustments)`: applies `createAdjustment` to
each entry in order; a thrown error is caught per entry (that entry's
writes are rolled back, the loop continues) and recorded as a failure
result. Returns the per-entry results and the final state. -/
def bulkAdjustments (db : DB) (list : List AdjustmentData) :
    List BulkResult × DB :=
  match list with
  | [] => ([], db)
  | d :: rest =>
    match createAdjustment db d with
    | Except.ok (adjustmentId, db') =>
      ({ productId := d.productId, success := true,
         adjustmentId := some adjustmentId, error := none }
           :: (bulkAdjustments db' rest).1,
       (bulkAdjustments db' rest).2)
    | Except.error e =>
      ({ productId := d.productId, success := false,
         adjustmentId := none, error := some e }
           :: (bulkAdjustments db rest).1,
       (bulkAdjustments db rest).2)

/-- `Inventory.resolveAlert(alertId)`: `UPDATE low_stock_alerts SET
is_resolved = 1, resolved_at = datetime('now') WHERE id = ?`; returns
`result.changes > 0`, i.e. whether a row with that id exists.  The SQL has
no `is_resolved = 0` condition, so an already-resolved row is matched and
updated again. -/
def resolveAlert (db : DB) (alertId : String) : Bool × DB :=
  let changes := db.alerts.countP (fun a => a.id = alertId)
  ((changes > 0 : Bool),
   { db with
     alerts := db.alerts.map (fun a =>
       if a.id = alertId then
         { a with is_resolved := true, resolved_at := some db.now }
       else a) })

/-- The inventory operations that mutate state, for reasoning about
arbitrary operation sequences.  `tick` models wall-clock time passing
between calls. -/
inductive Op where
  | adjust : AdjustmentData → Op
  | bulk : List AdjustmentData → Op
  | resolve : String → Op
  | tick : Nat → Op
  deriving Repr, DecidableEq

/-- Executing one operation against the database.  A failed
`createAdjustment` (thrown error) leaves the state unchanged: the
transaction rolled back. -/
def step (db : DB) (op : Op) : DB :=
  match op with
  | Op.adjust d =>
    match createAdjustment db d with
    | Except.ok (_, db') => db'
    | Except.error _ => db
  | Op.bulk l => (bulkAdjustments db l).2
  | Op.resolve alertId => (resolveAlert db alertId).2
  | Op.tick k => { db with now := db.now + k }

/-- Executing a sequence of operations. -/
def steps (db : DB) (ops : List Op) : DB :=
  ops.foldl step db

end Inventory

namespace Inventory

/-! ### Basic facts about the embedded operations -/

theorem checkLowStockAlert_products (db : DB) (pid : String) (q : Int) :
    (checkLowStockAlert db pid q).products = db.products := by
  unfold checkLowStockAlert
  cases findProduct db pid
  all_goals dsimp only
  all_goals (repeat' split)
  all_goals rfl

theorem checkLowStockAlert_adjustments (db : DB) (pid : String) (q : Int) :
    (checkLowStockAlert db pid q).adjustments = db.adjustments := by
  unfold checkLowStockAlert
  cases findProduct db pid
  all_goals dsimp only
  all_goals (repeat' split)
  all_goals rfl

theorem checkLowStockAlert_now (db : DB) (pid : String) (q : Int) :
    (checkLowStockAlert db pid q).now = db.now := by
  unfold checkLowStockAlert
  cases findProduct db pid
  all_goals dsimp only
  all_goals (repeat' split)
  all_goals rfl

/-- Dissection of a successful `createAdjustment`: the type was valid, the
product was found, the `switch` produced a new quantity without throwing,
and the resulting state is the product update, the ledger insert and the
alert check in sequence. -/
theorem createAdjustment_ok_elim (db : DB) (d : AdjustmentData) (id : String)
    (db' : DB) (h : createAdjustment db d = Except.ok (id, db')) :
    validTypes.contains d.type = true ∧
    ∃ p nq, findProduct db d.productId = some p ∧
      computeNewQuantity d.type p.stock_quantity d.quantity = Except.ok nq ∧
      id = generateId "adj" db.nextId ∧
      db' = checkLowStockAlert
        { updateProductStock db d.productId nq (calculateStockStatus nq 20) with
          adjustments := db.adjustments ++ [mkAdjustmentRow id d],
          nextId := db.nextId + 1 } d.productId nq := by
  unfold createAdjustment at h
  split at h
  · exact absurd h (by simp)
  · rename_i hv
    split at h
    · exact absurd h (by simp)
    · rename_i p hp
      split at h
      · exact absurd h (by simp)
      · rename_i nq hq
        simp only [Except.ok.injEq, Prod.mk.injEq] at h
        obtain ⟨h1, h2⟩ := h
        refine ⟨of_not_not hv, p, nq, hp, hq, h1.symm, ?_⟩
        rw [← h2, ← h1]
        rfl

theorem findProduct_mem (db : DB) (pid : String) (p : Product)
    (h : findProduct db pid = some p) : p ∈ db.products ∧ p.id = pid := by
  unfold findProduct at h
  refine ⟨List.mem_of_find?_eq_some h, ?_⟩
  have := List.find?_some h
  simpa using this

theorem findProduct_updateProductStock (db : DB) (pid : String) (q : Int)
    (s : String) :
    findProduct (updateProductStock db pid q s) pid =
      (findProduct db pid).map
        (fun p => { p with stock_quantity := q, stock_status := s }) := by
  unfold findProduct updateProductStock
  induction db.products with
  | nil => rfl
  | cons a t ih =>
    by_cases ha : a.id = pid
    · simp only [List.map_cons, if_pos ha]
      rw [List.find?_cons_of_pos, List.find?_cons_of_pos] <;> simp [ha]
    · simp only [List.map_cons, if_neg ha]
      rw [List.find?_cons_of_neg _ (by simp [ha]), List.find?_cons_of_neg _ (by simp [ha])]
      exact ih

end Inventory

namespace Inventory

theorem computeNewQuantity_ok_eq (t : String) (cur q nq : Int)
    (h : computeNewQuantity t cur q = Except.ok nq) :
    nq = if t = "purchase" ∨ t = "return" then cur + q
      else if t = "sale" ∨ t = "damage" ∨ t = "theft" then cur - q
      else if t = "adjustment" then q
      else if t = "transfer" then cur + q
      else cur := by
  unfold computeNewQuantity at h
  dsimp only at h
  repeat' split at h
  all_goals simp_all

theorem computeNewQuantity_nonneg (t : String) (cur q nq : Int)
    (hq : 0 < q) (hcur : 0 ≤ cur)
    (h : computeNewQuantity t cur q = Except.ok nq) : 0 ≤ nq := by
  unfold computeNewQuantity at h
  dsimp only at h
  repeat' split at h
  all_goals simp_all
  all_goals omega

/-- Reconstruction of a successful `createAdjustment` from its three
guards. -/
theorem createAdjustment_ok_intro (db : DB) (d : AdjustmentData) (p : Product)
    (nq : Int) (hv : validTypes.contains d.type = true)
    (hfind : findProduct db d.productId = some p)
    (hcnq : computeNewQuantity d.type p.stock_quantity d.quantity = Except.ok nq) :
    createAdjustment db d = Except.ok (generateId "adj" db.nextId,
      checkLowStockAlert
        { updateProductStock db d.productId nq (calculateStockStatus nq 20) with
          adjustments := db.adjustments ++
            [mkAdjustmentRow (generateId "adj" db.nextId) d],
          nextId := db.nextId + 1 } d.productId nq) := by
  unfold createAdjustment
  rw [if_neg (by rw [hv]; decide)]
  rw [hfind]
  dsimp only
  rw [hcnq]
  rfl

theorem findProduct_eq_of_products (db1 db2 : DB) (pid : String)
    (h : db1.products = db2.products) :
    findProduct db1 pid = findProduct db2 pid := by
  unfold findProduct; rw [h]

theorem findProduct_checkLowStockAlert (db : DB) (pid pid2 : String)
    (q : Int) :
    findProduct (checkLowStockAlert db pid q) pid2 = findProduct db pid2 := by
  unfold findProduct
  rw [checkLowStockAlert_products]

end Inventory

namespace Inventory

/-- After a successful adjustment, looking up the product again finds it
with the new quantity and the status the code computed (threshold 20). -/
theorem findProduct_after_ok (db : DB) (d : AdjustmentData) (nq : Int)
    (p : Product) (hfind : findProduct db d.productId = some p) :
    findProduct (checkLowStockAlert
      { updateProductStock db d.productId nq (calculateStockStatus nq 20) with
        adjustments := db.adjustments ++
          [mkAdjustmentRow (generateId "adj" db.nextId) d],
        nextId := db.nextId + 1 } d.productId nq) d.productId
    = some { p with stock_quantity := nq,
                    stock_status := calculateStockStatus nq 20 } := by
  rw [findProduct_checkLowStockAlert]
  have hX : findProduct
      { updateProductStock db d.productId nq (calculateStockStatus nq 20) with
        adjustments := db.adjustments ++
          [mkAdjustmentRow (generateId "adj" db.nextId) d],
        nextId := db.nextId + 1 } d.productId
      = findProduct (updateProductStock db d.productId nq
          (calculateStockStatus nq 20)) d.productId := rfl
  rw [hX, findProduct_updateProductStock, hfind]
  rfl

/-- C8: a `createAdjustment` call whose `type` is not one of the seven
recognized kinds fails with the `InvalidAdjustmentType` error message and
persists nothing: products, ledger and alerts are all unchanged. -/
theorem createAdjustment_invalid_type_rejected (db : DB) (d : AdjustmentData)
    (h : validTypes.contains d.type = false) :
    createAdjustment db d
      = Except.error ("Invalid adjustment type: " ++ d.type) ∧
    step db (Op.adjust d) = db := by
  have h1 : createAdjustment db d
      = Except.error ("Invalid adjustment type: " ++ d.type) := by
    unfold createAdjustment
    rw [if_pos (by rw [h]; decide)]
  exact ⟨h1, by simp [step, h1]⟩

/-- Witness for C8: the unrecognized type "restock" is rejected on a
concrete state. -/
theorem createAdjustment_invalid_type_rejected_witness :
    validTypes.contains "restock" = false ∧
    (createAdjustment
        { products := [], adjustments := [], alerts := [], nextId := 0, now := 0 }
        { productId := "p1", type := "restock", quantity := 1, reason := "r",
          notes := none, createdBy := none }
      = Except.error ("Invalid adjustment type: " ++ "restock") ∧
     step { products := [], adjustments := [], alerts := [], nextId := 0, now := 0 }
        (Op.adjust { productId := "p1", type := "restock", quantity := 1,
                     reason := "r", notes := none, createdBy := none })
      = { products := [], adjustments := [], alerts := [], nextId := 0, now := 0 }) :=
  ⟨by decide, createAdjustment_invalid_type_rejected _ _ (by decide)⟩

/-- C10: `createAdjustment` does no sign or magnitude validation of the
`quantity` argument: on an existing product, an `adjustment`-type call
with a negative quantity succeeds (no `InsufficientStock` error is
possible on that branch) and persists the negative value as the product's
stock quantity. -/
theorem createAdjustment_negative_adjustment_persists (db : DB)
    (d : AdjustmentData) (p : Product)
    (hfind : findProduct db d.productId = some p)
    (htype : d.type = "adjustment") (hneg : d.quantity < 0) :
    ∃ db', createAdjustment db d = Except.ok (generateId "adj" db.nextId, db') ∧
      ∃ p', findProduct db' d.productId = some p' ∧
        p'.stock_quantity = d.quantity ∧ p'.stock_quantity < 0 := by
  have hv : validTypes.contains d.type = true := by rw [htype]; decide
  have hcnq : computeNewQuantity d.type p.stock_quantity d.quantity
      = Except.ok d.quantity := by
    rw [htype]
    unfold computeNewQuantity
    simp
  refine ⟨_, createAdjustment_ok_intro db d p d.quantity hv hfind hcnq, ?_⟩
  refine ⟨_, findProduct_after_ok db d d.quantity p hfind, rfl, hneg⟩

/-- Witness for C10: quantity −4 on a product with stock 7 is persisted
as stock −4. -/
theorem createAdjustment_negative_adjustment_persists_witness :
    findProduct
        { products := [{ id := "p1", stock_quantity := 7, stock_low_threshold := 20,
                         reorder_level := 10, stock_status := "in_stock" }],
          adjustments := [], alerts := [], nextId := 0, now := 0 } "p1"
      = some { id := "p1", stock_quantity := 7, stock_low_threshold := 20,
               reorder_level := 10, stock_status := "in_stock" } ∧
    ((-4 : Int) < 0) ∧
    (∃ db', createAdjustment
        { products := [{ id := "p1", stock_quantity := 7, stock_low_threshold := 20,
                         reorder_level := 10, stock_status := "in_stock" }],
          adjustments := [], alerts := [], nextId := 0, now := 0 }
        { productId := "p1", type := "adjustment", quantity := -4, reason := "r",
          notes := none, createdBy := none }
      = Except.ok (generateId "adj" 0, db') ∧
      ∃ p', findProduct db' "p1" = some p' ∧
        p'.stock_quantity = -4 ∧ p'.stock_quantity < 0) :=
  ⟨by decide, by decide,
   createAdjustment_negative_adjustment_persists
     { products := [{ id := "p1", stock_quantity := 7, stock_low_threshold := 20,
                      reorder_level := 10, stock_status := "in_stock" }],
       adjustments := [], alerts := [], nextId := 0, now := 0 }
     { productId := "p1", type := "adjustment", quantity := -4, reason := "r",
       notes := none, createdBy := none }
     { id := "p1", stock_quantity := 7, stock_low_threshold := 20,
       reorder_level := 10, stock_status := "in_stock" }
     (by decide) rfl (by decide)⟩

end Inventory

namespace Inventory

/-- C3: when `createAdjustment` succeeds on an existing product with a
positive quantity n, the persisted quantity is q+n for `purchase` and
`return`, q−n for `sale`, `damage` and `theft`, exactly n (absolute set)
for `adjustment`, and q+n for `transfer` (n a signed delta); moreover an
`adjustment`-type call with quantity 0 sets the quantity to exactly 0 and
the status to `out_of_stock` regardless of the prior quantity. -/
theorem createAdjustment_quantity_by_type :
    (∀ (db : DB) (d : AdjustmentData) (p : Product) (id : String) (db' : DB),
      0 < d.quantity →
      findProduct db d.productId = some p →
      createAdjustment db d = Except.ok (id, db') →
      ∃ p', findProduct db' d.productId = some p' ∧
        p'.stock_quantity =
          (if d.type = "purchase" ∨ d.type = "return" then
             p.stock_quantity + d.quantity
           else if d.type = "sale" ∨ d.type = "damage" ∨ d.type = "theft" then
             p.stock_quantity - d.quantity
           else if d.type = "adjustment" then d.quantity
           else p.stock_quantity + d.quantity)) ∧
    (∀ (db : DB) (d : AdjustmentData) (p : Product) (id : String) (db' : DB),
      d.type = "adjustment" → d.quantity = 0 →
      findProduct db d.productId = some p →
      createAdjustment db d = Except.ok (id, db') →
      ∃ p', findProduct db' d.productId = some p' ∧
        p'.stock_quantity = 0 ∧ p'.stock_status = "out_of_stock") := by
  constructor
  · intro db d p id db' hpos hfind hok
    obtain ⟨hv, p2, nq, hfind2, hcnq, hid, hdb'⟩ :=
      createAdjustment_ok_elim db d id db' hok
    rw [hfind] at hfind2
    injection hfind2 with hpp
    subst hpp
    subst hid
    subst hdb'
    refine ⟨_, findProduct_after_ok db d nq p hfind, ?_⟩
    have hnq := computeNewQuantity_ok_eq _ _ _ _ hcnq
    have hmem : d.type ∈ validTypes := by
      simpa using hv
    simp only [validTypes, List.mem_cons, List.not_mem_nil, or_false] at hmem
    rcases hmem with h|h|h|h|h|h|h
    all_goals simp [h] at hnq ⊢
    all_goals omega
  · intro db d p id db' htype hq hfind hok
    obtain ⟨hv, p2, nq, hfind2, hcnq, hid, hdb'⟩ :=
      createAdjustment_ok_elim db d id db' hok
    rw [hfind] at hfind2
    injection hfind2 with hpp
    subst hpp
    subst hid
    subst hdb'
    have hnq := computeNewQuantity_ok_eq _ _ _ _ hcnq
    simp [htype, hq] at hnq
    refine ⟨_, findProduct_after_ok db d nq p hfind, ?_⟩
    subst hnq
    exact ⟨rfl, rfl⟩

/-- Witness for C3: a `sale` of 10 from quantity 25, and an `adjustment`
of 0 from quantity 7, each on a concrete one-product state. -/
theorem createAdjustment_quantity_by_type_witness :
    (0 < (10 : Int) ∧
     findProduct
        { products := [{ id := "p1", stock_quantity := 25, stock_low_threshold := -1,
                         reorder_level := -1, stock_status := "in_stock" }],
          adjustments := [], alerts := [], nextId := 0, now := 0 } "p1"
       = some { id := "p1", stock_quantity := 25, stock_low_threshold := -1,
                reorder_level := -1, stock_status := "in_stock" } ∧
     ∃ p', findProduct
        { products := [{ id := "p1", stock_quantity := 15, stock_low_threshold := -1,
                         reorder_level := -1, stock_status := "low_stock" }],
          adjustments := [{ id := "adj_0", product_id := "p1", adjustment_type := "sale",
                            quantity := 10, reason := "r", notes := none,
                            created_by := none }],
          alerts := [], nextId := 1, now := 0 } "p1"
       = some p' ∧ p'.stock_quantity = 15) ∧
    (∃ p', findProduct
        { products := [{ id := "p1", stock_quantity := 0, stock_low_threshold := -1,
                         reorder_level := -1, stock_status := "out_of_stock" }],
          adjustments := [{ id := "adj_0", product_id := "p1",
                            adjustment_type := "adjustment", quantity := 0,
                            reason := "r", notes := none, created_by := none }],
          alerts := [], nextId := 1, now := 0 } "p1"
       = some p' ∧ p'.stock_quantity = 0 ∧ p'.stock_status = "out_of_stock") := by
  constructor
  · refine ⟨by decide, by decide, ?_⟩
    have h := createAdjustment_quantity_by_type.1
      { products := [{ id := "p1", stock_quantity := 25, stock_low_threshold := -1,
                       reorder_level := -1, stock_status := "in_stock" }],
        adjustments := [], alerts := [], nextId := 0, now := 0 }
      { productId := "p1", type := "sale", quantity := 10, reason := "r",
        notes := none, createdBy := none }
      { id := "p1", stock_quantity := 25, stock_low_threshold := -1,
        reorder_level := -1, stock_status := "in_stock" }
      "adj_0"
      { products := [{ id := "p1", stock_quantity := 15, stock_low_threshold := -1,
                       reorder_level := -1, stock_status := "low_stock" }],
        adjustments := [{ id := "adj_0", product_id := "p1", adjustment_type := "sale",
                          quantity := 10, reason := "r", notes := none,
                          created_by := none }],
        alerts := [], nextId := 1, now := 0 }
      (by decide) (by decide) rfl
    simpa using h
  · have h := createAdjustment_quantity_by_type.2
      { products := [{ id := "p1", stock_quantity := 7, stock_low_threshold := -1,
                       reorder_level := -1, stock_status := "in_stock" }],
        adjustments := [], alerts := [], nextId := 0, now := 0 }
      { productId := "p1", type := "adjustment", quantity := 0, reason := "r",
        notes := none, createdBy := none }
      { id := "p1", stock_quantity := 7, stock_low_threshold := -1,
        reorder_level := -1, stock_status := "in_stock" }
      "adj_0"
      { products := [{ id := "p1", stock_quantity := 0, stock_low_threshold := -1,
                       reorder_level := -1, stock_status := "out_of_stock" }],
        adjustments := [{ id := "adj_0", product_id := "p1",
                          adjustment_type := "adjustment", quantity := 0,
                          reason := "r", notes := none, created_by := none }],
        alerts := [], nextId := 1, now := 0 }
      rfl rfl (by decide) rfl
    simpa using h

end Inventory

namespace Inventory

/-- C1 fails on the code: `createAdjustment` persists the status computed
by `calculateStockStatus(newQuantity)` with the *default* threshold 20,
not the product's `stock_low_threshold`.  On a product with threshold 5,
setting the quantity to 10 persists status `"low_stock"` (10 ≤ 20),
while the pure function of quantity and the product's own threshold gives
`"in_stock"` (10 > 5). -/
theorem createAdjustment_status_uses_default_threshold :
    ((createAdjustment
        { products := [{ id := "p2", stock_quantity := 3, stock_low_threshold := 5,
                         reorder_level := 2, stock_status := "low_stock" }],
          adjustments := [], alerts := [], nextId := 0, now := 0 }
        { productId := "p2", type := "adjustment", quantity := 10, reason := "r",
          notes := none, createdBy := none }).toOption.map
      (fun r => (findProduct r.2 "p2").map
        (fun p => (p.stock_quantity, p.stock_status, p.stock_low_threshold)))
      = some (some (10, "low_stock", 5))) ∧
    calculateStockStatus 10 5 = "in_stock" := by
  constructor
  · rfl
  · decide

/-- C4 fails as stated: resolving an already-resolved alert a second time
is not a no-op.  On a concrete state whose only alert is already resolved
with `resolvedAt = 5`, calling `resolveAlert` at clock 9 returns `true`
(`changes > 0`, since the `UPDATE` has no `is_resolved = 0` filter) and
overwrites `resolvedAt` from 5 to 9. -/
theorem resolveAlert_second_resolve_not_noop :
    resolveAlert
      { products := [], adjustments := [],
        alerts := [{ id := "a1", product_id := "p1", alert_type := "low_stock",
                     current_quantity := 3, threshold := 20,
                     is_resolved := true, resolved_at := some 5 }],
        nextId := 0, now := 9 } "a1"
    = (true,
       { products := [], adjustments := [],
         alerts := [{ id := "a1", product_id := "p1", alert_type := "low_stock",
                      current_quantity := 3, threshold := 20,
                      is_resolved := true, resolved_at := some 9 }],
         nextId := 0, now := 9 }) := by
  decide

/-- C4 amended: `resolveAlert` returns `false` and leaves the state
unchanged when no alert has the given id (it does not throw); but for an
id whose alert is already resolved, it returns `true` again and
overwrites that alert's `resolvedAt` with the current clock — only the
`isResolved` flag itself is idempotent. -/
theorem resolveAlert_amended :
    (∀ (db : DB) (alertId : String),
      (∀ a ∈ db.alerts, a.id ≠ alertId) →
      resolveAlert db alertId = (false, db)) ∧
    (∀ (db : DB) (alertId : String) (a : Alert),
      a ∈ db.alerts → a.id = alertId → a.is_resolved = true →
      (resolveAlert db alertId).1 = true ∧
      ∀ b ∈ (resolveAlert db alertId).2.alerts,
        b.id = alertId → b.is_resolved = true ∧ b.resolved_at = some db.now) := by
  constructor
  · intro db alertId h
    unfold resolveAlert
    have hc : db.alerts.countP (fun a => decide (a.id = alertId)) = 0 :=
      List.countP_eq_zero.mpr (fun a ha => by simp [h a ha])
    have hm : db.alerts.map (fun a =>
        if a.id = alertId then
          { a with is_resolved := true, resolved_at := some db.now }
        else a) = db.alerts := by
      conv_rhs => rw [← List.map_id db.alerts]
      exact List.map_congr_left (fun a ha => by rw [if_neg (h a ha)]; rfl)
    rw [hc, hm]
    rfl
  · intro db alertId a ha hid hres
    constructor
    · have hpos : 0 < db.alerts.countP (fun x => decide (x.id = alertId)) :=
        List.countP_pos_iff.mpr ⟨a, ha, by simp [hid]⟩
      unfold resolveAlert
      simpa using hpos
    · intro b hb hbid
      unfold resolveAlert at hb
      simp only at hb
      obtain ⟨c, hc, hcb⟩ := List.mem_map.mp hb
      by_cases hcid : c.id = alertId
      · rw [if_pos hcid] at hcb
        rw [← hcb]
        exact ⟨rfl, rfl⟩
      · rw [if_neg hcid] at hcb
        rw [← hcb] at hbid
        exact absurd hbid hcid

/-- Witness for the amended C4: a nonexistent id on a concrete state, and
a second resolve of a concrete already-resolved alert. -/
theorem resolveAlert_amended_witness :
    ((∀ a ∈ ({ products := [], adjustments := [],
               alerts := [{ id := "a1", product_id := "p1", alert_type := "low_stock",
                            current_quantity := 3, threshold := 20,
                            is_resolved := false, resolved_at := none }],
               nextId := 0, now := 5 } : DB).alerts, a.id ≠ "zzz") ∧
     resolveAlert
       { products := [], adjustments := [],
         alerts := [{ id := "a1", product_id := "p1", alert_type := "low_stock",
                      current_quantity := 3, threshold := 20,
                      is_resolved := false, resolved_at := none }],
         nextId := 0, now := 5 } "zzz"
       = (false,
          { products := [], adjustments := [],
            alerts := [{ id := "a1", product_id := "p1", alert_type := "low_stock",
                         current_quantity := 3, threshold := 20,
                         is_resolved := false, resolved_at := none }],
            nextId := 0, now := 5 })) ∧
    ((resolveAlert
        { products := [], adjustments := [],
          alerts := [{ id := "a1", product_id := "p1", alert_type := "low_stock",
                       current_quantity := 3, threshold := 20,
                       is_resolved := true, resolved_at := some 5 }],
          nextId := 0, now := 9 } "a1").1 = true ∧
     ∀ b ∈ (resolveAlert
        { products := [], adjustments := [],
          alerts := [{ id := "a1", product_id := "p1", alert_type := "low_stock",
                       current_quantity := 3, threshold := 20,
                       is_resolved := true, resolved_at := some 5 }],
          nextId := 0, now := 9 } "a1").2.alerts,
       b.id = "a1" → b.is_resolved = true ∧ b.resolved_at = some 9) :=
  ⟨⟨by decide,
    resolveAlert_amended.1
      { products := [], adjustments := [],
        alerts := [{ id := "a1", product_id := "p1", alert_type := "low_stock",
                     current_quantity := 3, threshold := 20,
                     is_resolved := false, resolved_at := none }],
        nextId := 0, now := 5 } "zzz" (by decide)⟩,
   resolveAlert_amended.2
     { products := [], adjustments := [],
       alerts := [{ id := "a1", product_id := "p1", alert_type := "low_stock",
                    current_quantity := 3, threshold := 20,
                    is_resolved := true, resolved_at := some 5 }],
       nextId := 0, now := 9 } "a1"
     { id := "a1", product_id := "p1", alert_type := "low_stock",
       current_quantity := 3, threshold := 20,
       is_resolved := true, resolved_at := some 5 }
     (by decide) rfl rfl⟩

end Inventory

namespace Inventory

/-- Appending an alert of a different type does not change whether an open
alert of type `t` exists. -/
theorem hasOpenAlert_append_other (alerts : List Alert) (x : Alert)
    (pid t : String) (h : ¬ x.alert_type = t) :
    hasOpenAlert (alerts ++ [x]) pid t = hasOpenAlert alerts pid t := by
  unfold hasOpenAlert
  rw [List.any_append]
  simp [isOpenAlertFor, h]

/-- C6: given the product exists, `checkLowStockAlert` appends exactly one
new `low_stock` alert iff the quantity is at or below the product's
`lowStockThreshold` and no unresolved `low_stock` alert exists, and
exactly one new `reorder` alert iff the quantity is at or below the
`reorderLevel` and no unresolved `reorder` alert exists; otherwise it
appends nothing, and it never touches the existing rows. -/
theorem checkLowStockAlert_spec (db : DB) (pid : String) (q : Int)
    (p : Product) (hfind : findProduct db pid = some p) :
    ∃ inserted : List Alert,
      (checkLowStockAlert db pid q).alerts = db.alerts ++ inserted ∧
      inserted.countP (fun a => a.alert_type = "low_stock")
        = (if q ≤ p.stock_low_threshold ∧
              hasOpenAlert db.alerts pid "low_stock" = false
           then 1 else 0) ∧
      inserted.countP (fun a => a.alert_type = "reorder")
        = (if q ≤ p.reorder_level ∧
              hasOpenAlert db.alerts pid "reorder" = false
           then 1 else 0) ∧
      ∀ a ∈ inserted, a.product_id = pid ∧ a.current_quantity = q ∧
        a.is_resolved = false := by
  unfold checkLowStockAlert
  rw [hfind]
  dsimp only
  by_cases h1 : q ≤ p.stock_low_threshold
  · rw [if_pos h1]
    by_cases h2 : hasOpenAlert db.alerts pid "low_stock" = true
    · rw [if_pos h2]
      by_cases h3 : q ≤ p.reorder_level
      · rw [if_pos h3]
        by_cases h4 : hasOpenAlert db.alerts pid "reorder" = true
        · rw [if_pos h4]
          refine ⟨[], by simp, ?_, ?_, ?_⟩
          · simp [h2]
          · simp [h4]
          · simp
        · rw [if_neg h4]
          dsimp only
          refine ⟨_, rfl, ?_, ?_, ?_⟩
          · simp [mkAlert, h2]
          · simp only [Bool.not_eq_true] at h4
            simp [mkAlert, h3, h4]
          · simp [mkAlert]
      · rw [if_neg h3]
        refine ⟨[], by simp, ?_, ?_, ?_⟩
        · simp [h2]
        · simp [h3]
        · simp
    · rw [if_neg h2]
      dsimp only
      simp only [Bool.not_eq_true] at h2
      have hro : hasOpenAlert (db.alerts ++
          [mkAlert (generateId "alert" db.nextId) pid "low_stock" q
            p.stock_low_threshold]) pid "reorder"
          = hasOpenAlert db.alerts pid "reorder" :=
        hasOpenAlert_append_other _ _ _ _ (by simp [mkAlert])
      by_cases h3 : q ≤ p.reorder_level
      · rw [if_pos h3, hro]
        by_cases h4 : hasOpenAlert db.alerts pid "reorder" = true
        · rw [if_pos h4]
          refine ⟨_, rfl, ?_, ?_, ?_⟩
          · simp [mkAlert, h1, h2]
          · simp [mkAlert, h4]
          · simp [mkAlert]
        · rw [if_neg h4]
          dsimp only
          simp only [Bool.not_eq_true] at h4
          refine ⟨_, by rw [List.append_assoc], ?_, ?_, ?_⟩
          · simp [mkAlert, h1, h2]
          · simp [mkAlert, h3, h4]
          · simp [mkAlert]
      · rw [if_neg h3]
        refine ⟨_, rfl, ?_, ?_, ?_⟩
        · simp [mkAlert, h1, h2]
        · simp [mkAlert, h3]
        · simp [mkAlert]
  · rw [if_neg h1]
    by_cases h3 : q ≤ p.reorder_level
    · rw [if_pos h3]
      by_cases h4 : hasOpenAlert db.alerts pid "reorder" = true
      · rw [if_pos h4]
        refine ⟨[], by simp, ?_, ?_, ?_⟩
        · simp [h1]
        · simp [h4]
        · simp
      · rw [if_neg h4]
        dsimp only
        simp only [Bool.not_eq_true] at h4
        refine ⟨_, rfl, ?_, ?_, ?_⟩
        · simp [mkAlert, h1]
        · simp [mkAlert, h3, h4]
        · simp [mkAlert]
    · rw [if_neg h3]
      refine ⟨[], by simp, ?_, ?_, ?_⟩
      · simp [h1]
      · simp [h3]
      · simp

end Inventory

namespace Inventory

/-- Witness for C6: quantity 15 against thresholds 20/10 with no open
alerts inserts exactly one `low_stock` alert and no `reorder` alert. -/
theorem checkLowStockAlert_spec_witness :
    findProduct
        { products := [{ id := "p1", stock_quantity := 25, stock_low_threshold := 20,
                         reorder_level := 10, stock_status := "in_stock" }],
          adjustments := [], alerts := [], nextId := 0, now := 0 } "p1"
      = some { id := "p1", stock_quantity := 25, stock_low_threshold := 20,
               reorder_level := 10, stock_status := "in_stock" } ∧
    ∃ inserted : List Alert,
      (checkLowStockAlert
        { products := [{ id := "p1", stock_quantity := 25, stock_low_threshold := 20,
                         reorder_level := 10, stock_status := "in_stock" }],
          adjustments := [], alerts := [], nextId := 0, now := 0 } "p1" 15).alerts
        = [] ++ inserted ∧
      inserted.countP (fun a => a.alert_type = "low_stock")
        = (if (15 : Int) ≤ 20 ∧ hasOpenAlert [] "p1" "low_stock" = false
           then 1 else 0) ∧
      inserted.countP (fun a => a.alert_type = "reorder")
        = (if (15 : Int) ≤ 10 ∧ hasOpenAlert [] "p1" "reorder" = false
           then 1 else 0) ∧
      ∀ a ∈ inserted, a.product_id = "p1" ∧ a.current_quantity = 15 ∧
        a.is_resolved = false :=
  ⟨by decide,
   checkLowStockAlert_spec
     { products := [{ id := "p1", stock_quantity := 25, stock_low_threshold := 20,
                      reorder_level := 10, stock_status := "in_stock" }],
       adjustments := [], alerts := [], nextId := 0, now := 0 } "p1" 15
     { id := "p1", stock_quantity := 25, stock_low_threshold := 20,
       reorder_level := 10, stock_status := "in_stock" }
     (by decide)⟩

/-- No product row holds a negative stock quantity. -/
def nonNegStock (db : DB) : Prop :=
  ∀ p ∈ db.products, 0 ≤ p.stock_quantity

/-- Every adjustment payload in the operation carries a positive quantity
(the spec's precondition on callers). -/
def posQuantities : Op → Prop
  | Op.adjust d => 0 < d.quantity
  | Op.bulk l => ∀ d ∈ l, 0 < d.quantity
  | Op.resolve _ => True
  | Op.tick _ => True

theorem createAdjustment_nonneg (db : DB) (d : AdjustmentData) (id : String)
    (db' : DB) (hq : 0 < d.quantity) (h0 : nonNegStock db)
    (h : createAdjustment db d = Except.ok (id, db')) : nonNegStock db' := by
  obtain ⟨hv, p, nq, hfind, hcnq, hid, hdb'⟩ :=
    createAdjustment_ok_elim db d id db' h
  have hp := findProduct_mem db d.productId p hfind
  have hnq : 0 ≤ nq :=
    computeNewQuantity_nonneg _ _ _ _ hq (h0 p hp.1) hcnq
  subst hdb'
  intro x hx
  rw [checkLowStockAlert_products] at hx
  have hx' : x ∈ db.products.map (fun p0 =>
      if p0.id = d.productId then
        { p0 with stock_quantity := nq,
                  stock_status := calculateStockStatus nq 20 }
      else p0) := hx
  obtain ⟨y, hy, hxy⟩ := List.mem_map.mp hx'
  by_cases hyid : y.id = d.productId
  · rw [if_pos hyid] at hxy
    rw [← hxy]
    exact hnq
  · rw [if_neg hyid] at hxy
    rw [← hxy]
    exact h0 y hy

theorem bulkAdjustments_nonneg (l : List AdjustmentData) (db : DB)
    (h0 : nonNegStock db) (hl : ∀ d ∈ l, 0 < d.quantity) :
    nonNegStock (bulkAdjustments db l).2 := by
  induction l generalizing db with
  | nil => exact h0
  | cons d rest ih =>
    unfold bulkAdjustments
    cases h : createAdjustment db d with
    | ok r =>
      obtain ⟨id, db'⟩ := r
      dsimp only
      exact ih db'
        (createAdjustment_nonneg db d id db' (hl d (by simp)) h0 h)
        (fun x hx => hl x (by simp [hx]))
    | error e =>
      dsimp only
      exact ih db h0 (fun x hx => hl x (by simp [hx]))

theorem step_nonneg (db : DB) (op : Op) (h0 : nonNegStock db)
    (hop : posQuantities op) : nonNegStock (step db op) := by
  cases op with
  | adjust d =>
    show nonNegStock (match createAdjustment db d with
      | Except.ok (_, db') => db'
      | Except.error _ => db)
    cases h : createAdjustment db d with
    | ok r =>
      obtain ⟨id, db'⟩ := r
      exact createAdjustment_nonneg db d id db' hop h0 h
    | error e => exact h0
  | bulk l => exact bulkAdjustments_nonneg l db h0 hop
  | resolve aid => exact h0
  | tick k => exact h0

theorem steps_nonneg (ops : List Op) (db : DB) (h0 : nonNegStock db)
    (hops : ∀ op ∈ ops, posQuantities op) : nonNegStock (steps db ops) := by
  induction ops generalizing db with
  | nil => exact h0
  | cons op rest ih =>
    exact ih (step db op) (step_nonneg db op h0 (hops op (by simp)))
      (fun x hx => hops x (by simp [hx]))

theorem createAdjustment_insufficient (db : DB) (d : AdjustmentData)
    (p : Product) (hfind : findProduct db d.productId = some p)
    (hcase : ((d.type = "sale" ∨ d.type = "damage" ∨ d.type = "theft") ∧
                p.stock_quantity < d.quantity) ∨
             (d.type = "transfer" ∧ p.stock_quantity + d.quantity < 0)) :
    createAdjustment db d = Except.error
      (if d.type = "transfer" then "Insufficient stock for transfer"
       else "Insufficient stock for this adjustment") := by
  have hv : validTypes.contains d.type = true := by
    rcases hcase with ⟨ht, _⟩ | ⟨ht, _⟩
    · rcases ht with ht | ht | ht
      all_goals rw [ht]
      all_goals decide
    · rw [ht]; decide
  have hcnq : computeNewQuantity d.type p.stock_quantity d.quantity
      = Except.error
          (if d.type = "transfer" then "Insufficient stock for transfer"
           else "Insufficient stock for this adjustment") := by
    rcases hcase with ⟨ht, hlt⟩ | ⟨ht, hlt⟩
    · rcases ht with ht | ht | ht
      all_goals rw [ht]
      all_goals unfold computeNewQuantity
      all_goals simp [show p.stock_quantity - d.quantity < 0 by omega]
    · rw [ht]
      unfold computeNewQuantity
      simp [hlt]
  unfold createAdjustment
  rw [if_neg (by rw [hv]; decide)]
  rw [hfind]
  dsimp only
  rw [hcnq]

end Inventory

namespace Inventory

/-- C2: a decreasing adjustment (`sale`/`damage`/`theft`, or a negative
`transfer`) whose magnitude exceeds the current stock fails with the
`InsufficientStock` error and leaves the whole prior state unchanged
(product rows, ledger, alerts); consequently, from any state with
non-negative stock, `stockQuantity` stays non-negative across every
sequence of operations whose adjustments carry positive quantities. -/
theorem insufficient_stock_rejected_and_stock_nonneg :
    (∀ (db : DB) (d : AdjustmentData) (p : Product),
      findProduct db d.productId = some p →
      (((d.type = "sale" ∨ d.type = "damage" ∨ d.type = "theft") ∧
          p.stock_quantity < d.quantity) ∨
        (d.type = "transfer" ∧ p.stock_quantity + d.quantity < 0)) →
      createAdjustment db d = Except.error
        (if d.type = "transfer" then "Insufficient stock for transfer"
         else "Insufficient stock for this adjustment") ∧
      step db (Op.adjust d) = db) ∧
    (∀ (db : DB) (ops : List Op), nonNegStock db →
      (∀ op ∈ ops, posQuantities op) → nonNegStock (steps db ops)) := by
  constructor
  · intro db d p hfind hcase
    have he := createAdjustment_insufficient db d p hfind hcase
    refine ⟨he, ?_⟩
    show (match createAdjustment db d with
      | Except.ok (_, db') => db'
      | Except.error _ => db) = db
    rw [he]
  · intro db ops h0 hops
    exact steps_nonneg ops db h0 hops

/-- Witness for C2: a `sale` of 999 against stock 5 is rejected with
`InsufficientStock` and changes nothing; and a short positive-quantity
operation sequence keeps stock non-negative. -/
theorem insufficient_stock_rejected_and_stock_nonneg_witness :
    (findProduct
        { products := [{ id := "p1", stock_quantity := 5, stock_low_threshold := 20,
                         reorder_level := 10, stock_status := "low_stock" }],
          adjustments := [], alerts := [], nextId := 0, now := 0 } "p1"
      = some { id := "p1", stock_quantity := 5, stock_low_threshold := 20,
               reorder_level := 10, stock_status := "low_stock" } ∧
     createAdjustment
        { products := [{ id := "p1", stock_quantity := 5, stock_low_threshold := 20,
                         reorder_level := 10, stock_status := "low_stock" }],
          adjustments := [], alerts := [], nextId := 0, now := 0 }
        { productId := "p1", type := "sale", quantity := 999, reason := "r",
          notes := none, createdBy := none }
      = Except.error "Insufficient stock for this adjustment" ∧
     step { products := [{ id := "p1", stock_quantity := 5, stock_low_threshold := 20,
                           reorder_level := 10, stock_status := "low_stock" }],
            adjustments := [], alerts := [], nextId := 0, now := 0 }
        (Op.adjust { productId := "p1", type := "sale", quantity := 999,
                     reason := "r", notes := none, createdBy := none })
      = { products := [{ id := "p1", stock_quantity := 5, stock_low_threshold := 20,
                         reorder_level := 10, stock_status := "low_stock" }],
          adjustments := [], alerts := [], nextId := 0, now := 0 }) ∧
    nonNegStock (steps
      { products := [{ id := "p1", stock_quantity := 5, stock_low_threshold := 20,
                       reorder_level := 10, stock_status := "low_stock" }],
        adjustments := [], alerts := [], nextId := 0, now := 0 }
      [Op.adjust { productId := "p1", type := "sale", quantity := 2,
                   reason := "r", notes := none, createdBy := none },
       Op.tick 3]) := by
  constructor
  · refine ⟨by decide, ?_⟩
    exact insufficient_stock_rejected_and_stock_nonneg.1
      { products := [{ id := "p1", stock_quantity := 5, stock_low_threshold := 20,
                       reorder_level := 10, stock_status := "low_stock" }],
        adjustments := [], alerts := [], nextId := 0, now := 0 }
      { productId := "p1", type := "sale", quantity := 999, reason := "r",
        notes := none, createdBy := none }
      { id := "p1", stock_quantity := 5, stock_low_threshold := 20,
        reorder_level := 10, stock_status := "low_stock" }
      (by decide) (Or.inl ⟨Or.inl rfl, by decide⟩)
  · exact insufficient_stock_rejected_and_stock_nonneg.2
      { products := [{ id := "p1", stock_quantity := 5, stock_low_threshold := 20,
                       reorder_level := 10, stock_status := "low_stock" }],
        adjustments := [], alerts := [], nextId := 0, now := 0 }
      [Op.adjust { productId := "p1", type := "sale", quantity := 2,
                   reason := "r", notes := none, createdBy := none },
       Op.tick 3]
      (by
        intro x hx
        simp only [List.mem_singleton] at hx
        subst hx
        decide)
      (by
        intro op hop
        simp only [List.mem_cons, List.not_mem_nil, or_false] at hop
        rcases hop with rfl | rfl
        · show (0 : Int) < 2
          decide
        · show True
          trivial)

end Inventory

namespace Inventory

theorem createAdjustment_adjustments (db : DB) (d : AdjustmentData)
    (id : String) (db' : DB) (h : createAdjustment db d = Except.ok (id, db')) :
    db'.adjustments = db.adjustments ++ [mkAdjustmentRow id d] := by
  obtain ⟨hv, p, nq, hfind, hcnq, hid, hdb'⟩ :=
    createAdjustment_ok_elim db d id db' h
  subst hdb'
  rw [checkLowStockAlert_adjustments]

theorem bulkAdjustments_adjustments_append (l : List AdjustmentData)
    (db : DB) :
    ∃ t, (bulkAdjustments db l).2.adjustments = db.adjustments ++ t := by
  induction l generalizing db with
  | nil => exact ⟨[], by simp [bulkAdjustments]⟩
  | cons d rest ih =>
    unfold bulkAdjustments
    cases h : createAdjustment db d with
    | ok r =>
      obtain ⟨id, db'⟩ := r
      dsimp only
      obtain ⟨t, ht⟩ := ih db'
      refine ⟨mkAdjustmentRow id d :: t, ?_⟩
      rw [ht, createAdjustment_adjustments db d id db' h]
      simp
    | error e =>
      dsimp only
      exact ih db

theorem step_adjustments_append (db : DB) (op : Op) :
    ∃ t, (step db op).adjustments = db.adjustments ++ t := by
  cases op with
  | adjust d =>
    show ∃ t, (match createAdjustment db d with
      | Except.ok (_, db') => db'
      | Except.error _ => db).adjustments = db.adjustments ++ t
    cases h : createAdjustment db d with
    | ok r =>
      obtain ⟨id, db'⟩ := r
      exact ⟨[mkAdjustmentRow id d], createAdjustment_adjustments db d id db' h⟩
    | error e => exact ⟨[], by simp⟩
  | bulk l => exact bulkAdjustments_adjustments_append l db
  | resolve aid => exact ⟨[], by simp [step, resolveAlert]⟩
  | tick k => exact ⟨[], by simp [step]⟩

theorem steps_adjustments_append (ops : List Op) (db : DB) :
    ∃ t, (steps db ops).adjustments = db.adjustments ++ t := by
  induction ops generalizing db with
  | nil => exact ⟨[], by simp [steps]⟩
  | cons op rest ih =>
    obtain ⟨t1, h1⟩ := step_adjustments_append db op
    obtain ⟨t2, h2⟩ := ih (step db op)
    refine ⟨t1 ++ t2, ?_⟩
    show (steps (step db op) rest).adjustments = db.adjustments ++ (t1 ++ t2)
    rw [h2, h1, List.append_assoc]

/-- C9: the adjustment ledger is append-only.  Across any sequence of
inventory operations the previous ledger rows survive unchanged as a
prefix (so rows are never updated or deleted and the row count never
decreases), and a successful `createAdjustment` appends exactly one row —
the one built from its arguments. -/
theorem ledger_append_only :
    (∀ (db : DB) (ops : List Op),
      ∃ t, (steps db ops).adjustments = db.adjustments ++ t) ∧
    (∀ (db : DB) (ops : List Op),
      db.adjustments.length ≤ (steps db ops).adjustments.length) ∧
    (∀ (db : DB) (d : AdjustmentData) (id : String) (db' : DB),
      createAdjustment db d = Except.ok (id, db') →
      db'.adjustments = db.adjustments ++ [mkAdjustmentRow id d]) := by
  refine ⟨fun db ops => steps_adjustments_append ops db, ?_, ?_⟩
  · intro db ops
    obtain ⟨t, ht⟩ := steps_adjustments_append ops db
    rw [ht]
    simp
  · intro db d id db' h
    exact createAdjustment_adjustments db d id db' h

/-- Witness for C9: one concrete sequence and one concrete successful
adjustment appending exactly its row. -/
theorem ledger_append_only_witness :
    (∃ t, (steps
        { products := [{ id := "p1", stock_quantity := 25, stock_low_threshold := -1,
                         reorder_level := -1, stock_status := "in_stock" }],
          adjustments := [], alerts := [], nextId := 0, now := 0 }
        [Op.adjust { productId := "p1", type := "sale", quantity := 10,
                     reason := "r", notes := none, createdBy := none },
         Op.resolve "zzz"]).adjustments
      = [] ++ t) ∧
    ({ products := [{ id := "p1", stock_quantity := 15, stock_low_threshold := -1,
                      reorder_level := -1, stock_status := "low_stock" }],
       adjustments := [{ id := "adj_0", product_id := "p1", adjustment_type := "sale",
                         quantity := 10, reason := "r", notes := none,
                         created_by := none }],
       alerts := [], nextId := 1, now := 0 } : DB).adjustments
      = [] ++ [mkAdjustmentRow "adj_0"
          { productId := "p1", type := "sale", quantity := 10, reason := "r",
            notes := none, createdBy := none }] :=
  ⟨ledger_append_only.1
     { products := [{ id := "p1", stock_quantity := 25, stock_low_threshold := -1,
                      reorder_level := -1, stock_status := "in_stock" }],
       adjustments := [], alerts := [], nextId := 0, now := 0 }
     [Op.adjust { productId := "p1", type := "sale", quantity := 10,
                  reason := "r", notes := none, createdBy := none },
      Op.resolve "zzz"],
   ledger_append_only.2.2
     { products := [{ id := "p1", stock_quantity := 25, stock_low_threshold := -1,
                      reorder_level := -1, stock_status := "in_stock" }],
       adjustments := [], alerts := [], nextId := 0, now := 0 }
     { productId := "p1", type := "sale", quantity := 10, reason := "r",
       notes := none, createdBy := none }
     "adj_0"
     { products := [{ id := "p1", stock_quantity := 15, stock_low_threshold := -1,
                      reorder_level := -1, stock_status := "low_stock" }],
       adjustments := [{ id := "adj_0", product_id := "p1", adjustment_type := "sale",
                         quantity := 10, reason := "r", notes := none,
                         created_by := none }],
       alerts := [], nextId := 1, now := 0 }
     rfl⟩

end Inventory

namespace Inventory

theorem bulkAdjustments_cons_ok (db : DB) (d : AdjustmentData)
    (rest : List AdjustmentData) (id : String) (db' : DB)
    (h : createAdjustment db d = Except.ok (id, db')) :
    bulkAdjustments db (d :: rest)
      = ({ productId := d.productId, success := true,
           adjustmentId := some id, error := none }
             :: (bulkAdjustments db' rest).1,
         (bulkAdjustments db' rest).2) := by
  conv_lhs => rw [bulkAdjustments.eq_def]
  dsimp only
  rw [h]

theorem bulkAdjustments_cons_error (db : DB) (d : AdjustmentData)
    (rest : List AdjustmentData) (e : String)
    (h : createAdjustment db d = Except.error e) :
    bulkAdjustments db (d :: rest)
      = ({ productId := d.productId, success := false,
           adjustmentId := none, error := some e }
             :: (bulkAdjustments db rest).1,
         (bulkAdjustments db rest).2) := by
  conv_lhs => rw [bulkAdjustments.eq_def]
  dsimp only
  rw [h]

theorem bulkAdjustments_append (db : DB) (l1 l2 : List AdjustmentData) :
    bulkAdjustments db (l1 ++ l2)
      = ((bulkAdjustments db l1).1
            ++ (bulkAdjustments (bulkAdjustments db l1).2 l2).1,
         (bulkAdjustments (bulkAdjustments db l1).2 l2).2) := by
  induction l1 generalizing db with
  | nil => simp [bulkAdjustments]
  | cons d rest ih =>
    show bulkAdjustments db (d :: (rest ++ l2)) = _
    cases h : createAdjustment db d with
    | ok r =>
      obtain ⟨id, db'⟩ := r
      rw [bulkAdjustments_cons_ok db d (rest ++ l2) id db' h,
          bulkAdjustments_cons_ok db d rest id db' h, ih db']
      simp
    | error e =>
      rw [bulkAdjustments_cons_error db d (rest ++ l2) e h,
          bulkAdjustments_cons_error db d rest e h, ih db]
      simp

theorem bulkAdjustments_length (db : DB) (l : List AdjustmentData) :
    (bulkAdjustments db l).1.length = l.length := by
  induction l generalizing db with
  | nil => rfl
  | cons d rest ih =>
    cases h : createAdjustment db d with
    | ok r =>
      obtain ⟨id, db'⟩ := r
      rw [bulkAdjustments_cons_ok db d rest id db' h]
      simp [ih]
    | error e =>
      rw [bulkAdjustments_cons_error db d rest e h]
      simp [ih]

/-- C7: `bulkAdjustments` applies `createAdjustment` to each entry in
order, independently: it returns exactly one result per input entry; a
failing entry contributes a `success := false` result carrying the error
message and leaves the state seen by the following entries exactly as it
was (its own writes rolled back, the others' kept); a succeeding entry
contributes `success := true` with its adjustment id and threads its
updated state to the rest.  One entry's failure never aborts the batch. -/
theorem bulkAdjustments_per_entry :
    (∀ (db : DB) (l : List AdjustmentData),
      (bulkAdjustments db l).1.length = l.length) ∧
    (∀ (db : DB) (pre : List AdjustmentData) (d : AdjustmentData)
       (post : List AdjustmentData) (e : String),
      createAdjustment (bulkAdjustments db pre).2 d = Except.error e →
      bulkAdjustments db (pre ++ d :: post)
        = ((bulkAdjustments db pre).1
            ++ ({ productId := d.productId, success := false,
                  adjustmentId := none, error := some e }
                :: (bulkAdjustments (bulkAdjustments db pre).2 post).1),
           (bulkAdjustments (bulkAdjustments db pre).2 post).2)) ∧
    (∀ (db : DB) (pre : List AdjustmentData) (d : AdjustmentData)
       (post : List AdjustmentData) (id : String) (db1 : DB),
      createAdjustment (bulkAdjustments db pre).2 d = Except.ok (id, db1) →
      bulkAdjustments db (pre ++ d :: post)
        = ((bulkAdjustments db pre).1
            ++ ({ productId := d.productId, success := true,
                  adjustmentId := some id, error := none }
                :: (bulkAdjustments db1 post).1),
           (bulkAdjustments db1 post).2)) := by
  refine ⟨bulkAdjustments_length, ?_, ?_⟩
  · intro db pre d post e h
    rw [bulkAdjustments_append db pre (d :: post),
        bulkAdjustments_cons_error _ d post e h]
  · intro db pre d post id db1 h
    rw [bulkAdjustments_append db pre (d :: post),
        bulkAdjustments_cons_ok _ d post id db1 h]

/-- Witness for C7 (the spec's Scenario E shape): three entries whose
second has an invalid type; the batch reports one result per entry and
the second entry's failure does not abort the third. -/
theorem bulkAdjustments_per_entry_witness :
    ((bulkAdjustments
        { products := [{ id := "p1", stock_quantity := 25, stock_low_threshold := -1,
                         reorder_level := -1, stock_status := "in_stock" }],
          adjustments := [], alerts := [], nextId := 0, now := 0 }
        [{ productId := "p1", type := "purchase", quantity := 5, reason := "r",
           notes := none, createdBy := none },
         { productId := "p1", type := "restock", quantity := 2, reason := "r",
           notes := none, createdBy := none },
         { productId := "p1", type := "sale", quantity := 3, reason := "r",
           notes := none, createdBy := none }]).1.length = 3) ∧
    (bulkAdjustments
        { products := [{ id := "p1", stock_quantity := 25, stock_low_threshold := -1,
                         reorder_level := -1, stock_status := "in_stock" }],
          adjustments := [], alerts := [], nextId := 0, now := 0 }
        ([{ productId := "p1", type := "purchase", quantity := 5, reason := "r",
            notes := none, createdBy := none }]
          ++ { productId := "p1", type := "restock", quantity := 2, reason := "r",
               notes := none, createdBy := none }
            :: [{ productId := "p1", type := "sale", quantity := 3, reason := "r",
                  notes := none, createdBy := none }])
      = ((bulkAdjustments
            { products := [{ id := "p1", stock_quantity := 25, stock_low_threshold := -1,
                             reorder_level := -1, stock_status := "in_stock" }],
              adjustments := [], alerts := [], nextId := 0, now := 0 }
            [{ productId := "p1", type := "purchase", quantity := 5, reason := "r",
               notes := none, createdBy := none }]).1
          ++ ({ productId := "p1", success := false, adjustmentId := none,
                error := some ("Invalid adjustment type: " ++ "restock") }
              :: (bulkAdjustments
                   (bulkAdjustments
                     { products := [{ id := "p1", stock_quantity := 25,
                                      stock_low_threshold := -1, reorder_level := -1,
                                      stock_status := "in_stock" }],
                       adjustments := [], alerts := [], nextId := 0, now := 0 }
                     [{ productId := "p1", type := "purchase", quantity := 5,
                        reason := "r", notes := none, createdBy := none }]).2
                   [{ productId := "p1", type := "sale", quantity := 3, reason := "r",
                      notes := none, createdBy := none }]).1),
         (bulkAdjustments
           (bulkAdjustments
             { products := [{ id := "p1", stock_quantity := 25, stock_low_threshold := -1,
                              reorder_level := -1, stock_status := "in_stock" }],
               adjustments := [], alerts := [], nextId := 0, now := 0 }
             [{ productId := "p1", type := "purchase", quantity := 5, reason := "r",
                notes := none, createdBy := none }]).2
           [{ productId := "p1", type := "sale", quantity := 3, reason := "r",
              notes := none, createdBy := none }]).2)) :=
  ⟨bulkAdjustments_per_entry.1
     { products := [{ id := "p1", stock_quantity := 25, stock_low_threshold := -1,
                      reorder_level := -1, stock_status := "in_stock" }],
       adjustments := [], alerts := [], nextId := 0, now := 0 }
     [{ productId := "p1", type := "purchase", quantity := 5, reason := "r",
        notes := none, createdBy := none },
      { productId := "p1", type := "restock", quantity := 2, reason := "r",
        notes := none, createdBy := none },
      { productId := "p1", type := "sale", quantity := 3, reason := "r",
        notes := none, createdBy := none }],
   bulkAdjustments_per_entry.2.1
     { products := [{ id := "p1", stock_quantity := 25, stock_low_threshold := -1,
                      reorder_level := -1, stock_status := "in_stock" }],
       adjustments := [], alerts := [], nextId := 0, now := 0 }
     [{ productId := "p1", type := "purchase", quantity := 5, reason := "r",
        notes := none, createdBy := none }]
     { productId := "p1", type := "restock", quantity := 2, reason := "r",
       notes := none, createdBy := none }
     [{ productId := "p1", type := "sale", quantity := 3, reason := "r",
        notes := none, createdBy := none }]
     ("Invalid adjustment type: " ++ "restock")
     rfl⟩

end Inventory

namespace Inventory

/-- Number of unresolved alerts for a given (productId, alertType) pair. -/
def openCount (alerts : List Alert) (pid t : String) : Nat :=
  alerts.countP (isOpenAlertFor pid t)

/-- The invariant: at most one unresolved alert per (productId, alertType)
pair. -/
def atMostOneOpen (db : DB) : Prop :=
  ∀ pid t, openCount db.alerts pid t ≤ 1

theorem openCount_eq_zero_of_not_open (alerts : List Alert) (pid t : String)
    (h : hasOpenAlert alerts pid t = false) : openCount alerts pid t = 0 := by
  unfold openCount
  rw [List.countP_eq_zero]
  intro a ha
  exact (List.any_eq_false.mp h) a ha

theorem openCount_append_new (alerts : List Alert) (id pid t : String)
    (q thr : Int) (hno : hasOpenAlert alerts pid t = false)
    (hall : ∀ pid2 t2, openCount alerts pid2 t2 ≤ 1) :
    ∀ pid2 t2, openCount (alerts ++ [mkAlert id pid t q thr]) pid2 t2 ≤ 1 := by
  intro pid2 t2
  unfold openCount
  rw [List.countP_append]
  by_cases hmatch : isOpenAlertFor pid2 t2 (mkAlert id pid t q thr) = true
  · have hpt : pid = pid2 ∧ t = t2 := by
      simpa [isOpenAlertFor, mkAlert] using hmatch
    obtain ⟨rfl, rfl⟩ := hpt
    have h0 : openCount alerts pid t = 0 := openCount_eq_zero_of_not_open _ _ _ hno
    unfold openCount at h0
    rw [h0]
    simp [hmatch]
  · have h1 : List.countP (isOpenAlertFor pid2 t2) [mkAlert id pid t q thr] = 0 := by
      simp only [List.countP_cons, List.countP_nil, hmatch]
      simp [hmatch]
    rw [h1]
    have := hall pid2 t2
    unfold openCount at this
    omega

theorem checkLowStockAlert_atMostOne (db : DB) (pid : String) (q : Int)
    (hall : ∀ pid2 t2, openCount db.alerts pid2 t2 ≤ 1) :
    ∀ pid2 t2, openCount (checkLowStockAlert db pid q).alerts pid2 t2 ≤ 1 := by
  unfold checkLowStockAlert
  cases findProduct db pid with
  | none => exact hall
  | some p =>
    dsimp only
    by_cases h1 : q ≤ p.stock_low_threshold
    · rw [if_pos h1]
      by_cases h2 : hasOpenAlert db.alerts pid "low_stock" = true
      · rw [if_pos h2]
        by_cases h3 : q ≤ p.reorder_level
        · rw [if_pos h3]
          by_cases h4 : hasOpenAlert db.alerts pid "reorder" = true
          · rw [if_pos h4]
            exact hall
          · rw [if_neg h4]
            exact openCount_append_new db.alerts _ pid "reorder" q _
              (Bool.not_eq_true _ ▸ h4 : _) hall
        · rw [if_neg h3]
          exact hall
      · rw [if_neg h2]
        dsimp only
        have h2f : hasOpenAlert db.alerts pid "low_stock" = false := by
          simpa using h2
        have hall1 := openCount_append_new db.alerts
          (generateId "alert" db.nextId) pid "low_stock" q
          p.stock_low_threshold h2f hall
        have hro : hasOpenAlert (db.alerts ++
            [mkAlert (generateId "alert" db.nextId) pid "low_stock" q
              p.stock_low_threshold]) pid "reorder"
            = hasOpenAlert db.alerts pid "reorder" :=
          hasOpenAlert_append_other _ _ _ _ (by simp [mkAlert])
        by_cases h3 : q ≤ p.reorder_level
        · rw [if_pos h3, hro]
          by_cases h4 : hasOpenAlert db.alerts pid "reorder" = true
          · rw [if_pos h4]
            exact hall1
          · rw [if_neg h4]
            dsimp only
            have h4f : hasOpenAlert db.alerts pid "reorder" = false := by
              simpa using h4
            exact openCount_append_new _ _ pid "reorder" q _
              (by rw [hro]; exact h4f) hall1
        · rw [if_neg h3]
          exact hall1
    · rw [if_neg h1]
      by_cases h3 : q ≤ p.reorder_level
      · rw [if_pos h3]
        by_cases h4 : hasOpenAlert db.alerts pid "reorder" = true
        · rw [if_pos h4]
          exact hall
        · rw [if_neg h4]
          exact openCount_append_new db.alerts _ pid "reorder" q _
            (by simpa using h4) hall
      · rw [if_neg h3]
        exact hall

end Inventory

namespace Inventory

theorem countP_map_le (l : List Alert) (f : Alert → Alert) (p : Alert → Bool)
    (hf : ∀ a, p (f a) = true → p a = true) :
    (l.map f).countP p ≤ l.countP p := by
  induction l with
  | nil => simp
  | cons a t ih =>
    simp only [List.map_cons, List.countP_cons]
    have hcases : (if p (f a) = true then 1 else 0)
        ≤ (if p a = true then 1 else 0) := by
      by_cases hpa : p (f a) = true
      · simp [hpa, hf a hpa]
      · simp [hpa]
    omega

theorem resolveAlert_atMostOne (db : DB) (aid : String)
    (hall : ∀ pid2 t2, openCount db.alerts pid2 t2 ≤ 1) :
    ∀ pid2 t2, openCount (resolveAlert db aid).2.alerts pid2 t2 ≤ 1 := by
  intro pid2 t2
  refine le_trans ?_ (hall pid2 t2)
  unfold resolveAlert openCount
  dsimp only
  apply countP_map_le
  intro a hpa
  by_cases h : a.id = aid
  · rw [if_pos h] at hpa
    exfalso
    simp [isOpenAlertFor] at hpa
  · rw [if_neg h] at hpa
    exact hpa

theorem createAdjustment_atMostOne (db : DB) (d : AdjustmentData)
    (id : String) (db' : DB) (h : createAdjustment db d = Except.ok (id, db'))
    (hall : ∀ pid2 t2, openCount db.alerts pid2 t2 ≤ 1) :
    ∀ pid2 t2, openCount db'.alerts pid2 t2 ≤ 1 := by
  obtain ⟨hv, p, nq, hfind, hcnq, hid, hdb'⟩ :=
    createAdjustment_ok_elim db d id db' h
  subst hdb'
  exact checkLowStockAlert_atMostOne _ _ _ hall

theorem bulkAdjustments_atMostOne (l : List AdjustmentData) (db : DB)
    (hall : ∀ pid2 t2, openCount db.alerts pid2 t2 ≤ 1) :
    ∀ pid2 t2, openCount (bulkAdjustments db l).2.alerts pid2 t2 ≤ 1 := by
  induction l generalizing db with
  | nil => exact hall
  | cons d rest ih =>
    cases h : createAdjustment db d with
    | ok r =>
      obtain ⟨id, db'⟩ := r
      rw [bulkAdjustments_cons_ok db d rest id db' h]
      exact ih db' (createAdjustment_atMostOne db d id db' h hall)
    | error e =>
      rw [bulkAdjustments_cons_error db d rest e h]
      exact ih db hall

theorem step_atMostOne (db : DB) (op : Op)
    (hall : ∀ pid2 t2, openCount db.alerts pid2 t2 ≤ 1) :
    ∀ pid2 t2, openCount (step db op).alerts pid2 t2 ≤ 1 := by
  cases op with
  | adjust d =>
    show ∀ pid2 t2, openCount (match createAdjustment db d with
      | Except.ok (_, db') => db'
      | Except.error _ => db).alerts pid2 t2 ≤ 1
    cases h : createAdjustment db d with
    | ok r =>
      obtain ⟨id, db'⟩ := r
      exact createAdjustment_atMostOne db d id db' h hall
    | error e => exact hall
  | bulk l => exact bulkAdjustments_atMostOne l db hall
  | resolve aid => exact resolveAlert_atMostOne db aid hall
  | tick k => exact hall

/-- C5: at most one unresolved alert per (productId, alertType) pair: a
state whose alerts table is empty satisfies the bound, and the bound is
preserved by every sequence of inventory operations — `checkLowStockAlert`
suppresses duplicates while an alert is open and no operation creates a
second unresolved alert of the same type for the same product. -/
theorem at_most_one_open_alert :
    (∀ db : DB, db.alerts = [] → atMostOneOpen db) ∧
    (∀ (db : DB) (ops : List Op), atMostOneOpen db →
      atMostOneOpen (steps db ops)) := by
  constructor
  · intro db h pid t
    unfold openCount
    rw [h]
    simp
  · intro db ops hall
    induction ops generalizing db with
    | nil => exact hall
    | cons op rest ih =>
      exact ih (step db op) (step_atMostOne db op hall)

/-- Witness for C5: from an empty-alerts state, a sequence of two sales
that both cross the thresholds (plus a resolve) still satisfies the
at-most-one-open bound. -/
theorem at_most_one_open_alert_witness :
    ({ products := [{ id := "p1", stock_quantity := 25, stock_low_threshold := 20,
                      reorder_level := 10, stock_status := "in_stock" }],
       adjustments := [], alerts := [], nextId := 0, now := 0 } : DB).alerts = [] ∧
    atMostOneOpen (steps
      { products := [{ id := "p1", stock_quantity := 25, stock_low_threshold := 20,
                       reorder_level := 10, stock_status := "in_stock" }],
        adjustments := [], alerts := [], nextId := 0, now := 0 }
      [Op.adjust { productId := "p1", type := "sale", quantity := 10,
                   reason := "r", notes := none, createdBy := none },
       Op.adjust { productId := "p1", type := "sale", quantity := 10,
                   reason := "r", notes := none, createdBy := none },
       Op.resolve "alert_1"]) :=
  ⟨rfl,
   at_most_one_open_alert.2
     { products := [{ id := "p1", stock_quantity := 25, stock_low_threshold := 20,
                      reorder_level := 10, stock_status := "in_stock" }],
       adjustments := [], alerts := [], nextId := 0, now := 0 }
     [Op.adjust { productId := "p1", type := "sale", quantity := 10,
                  reason := "r", notes := none, createdBy := none },
      Op.adjust { productId := "p1", type := "sale", quantity := 10,
                  reason := "r", notes := none, createdBy := none },
      Op.resolve "alert_1"]
     (at_most_one_open_alert.1
       { products := [{ id := "p1", stock_quantity := 25, stock_low_threshold := 20,
                        reorder_level := 10, stock_status := "in_stock" }],
         adjustments := [], alerts := [], nextId := 0, now := 0 }
       rfl)⟩

end Inventory
